import Mathlib

/-!
Verification of the workflow-compatibility resolver and job-logger lifecycle
of `fractal_server/app/runner/_common.py`, via a shallow embedding in Lean 4.

The data-carrier classes (`Dataset`, `Project`, `Task`) live in the ORM layer
outside the resolver module; only the fields the resolver reads are embedded,
as structures of those fields.
-/

namespace FractalServer

/- Fields of `Dataset` read by `_common.py`: `name`, `type`, `read_only`,
`paths` (an ordered list of path strings). -/
structure Dataset where
  name : String
  type : String
  read_only : Bool
  paths : List String
deriving DecidableEq

/- Fields of the workflow `Task` read by `_common.py`: `name`, `input_type`. -/
structure Task where
  name : String
  input_type : String
deriving DecidableEq

/- `Project` is passed to `auto_output_dataset` but never inspected there. -/
structure Project where
  name : String
deriving DecidableEq

/- Python exceptions raised by `_common.py`, by exception class and message.
A bare `raise ValueError` carries the empty message. -/
inductive PyError where
  | typeError (msg : String)
  | valueError (msg : String)
  | notImplementedError
deriving DecidableEq

/- The Python function returns `input_paths[0]` (a string) in the
no-output-dataset branch, and `output_dataset.paths` (a list) in the
explicit-output branch; this sum type records which of the two dynamic
types the returned value has. -/
inductive PyValue where
  | str (s : String)
  | list (xs : List String)
deriving DecidableEq

/- The exact message of `TypeError` in `validate_workflow_compatibility`:
the two adjacent f-string literals of the source, concatenated. -/
def typeMismatchMsg (workflow : Task) (input_dataset : Dataset) : String :=
  "Incompatible types `" ++ workflow.input_type ++ "` of workflow `" ++
    workflow.name ++ "` and `" ++ input_dataset.type ++ "` of dataset `" ++
    input_dataset.name ++ "`"

/- Embedding of `validate_workflow_compatibility`.  `output_dataset = none`
is Python `output_dataset = None`, the only falsy value of
`Optional[Dataset]` here (`if not output_dataset`). The branch
`len(input_paths) != 1` versus `input_paths[0]` is rendered as a match on
the singleton-list pattern. -/
def validate_workflow_compatibility (input_dataset : Dataset) (workflow : Task)
    (output_dataset : Option Dataset) : Except PyError PyValue :=
  if workflow.input_type ≠ "Any" ∧ workflow.input_type ≠ input_dataset.type then
    .error (.typeError (typeMismatchMsg workflow input_dataset))
  else
    match output_dataset with
    | none =>
        if input_dataset.read_only then
          .error (.valueError "Input dataset is read-only")
        else
          match input_dataset.paths with
          | [p] => .ok (.str p)
          | _ =>
              .error (.valueError
                "Cannot determine output path: multiple input paths to overwrite")
    | some od =>
        if od.paths.length ≠ 1 then
          .error (.valueError
            "Cannot determine output path: Multiple paths in dataset.")
        else
          .ok (.list od.paths)

/- Embedding of `auto_output_dataset` (the `async` wrapper adds nothing to
the value semantics).  `project` and `workflow` are accepted and ignored,
as in the source. -/
def auto_output_dataset (project : Project) (input_dataset : Dataset)
    (workflow : Task) (overwrite_input : Bool) : Except PyError Dataset :=
  if overwrite_input && !input_dataset.read_only then
    if input_dataset.paths.length ≠ 1 then
      .error (.valueError "")
    else
      .ok input_dataset
  else
    .error .notImplementedError

/- The spec's `ReadOnlyInput` error kind, as the concrete exception the
resolver raises for a read-only input. -/
def isReadOnlyInput (e : PyError) : Bool :=
  e = .valueError "Input dataset is read-only"

/- A logging sink, stripped of its mutable open/closed state:
`logging.FileHandler(path, mode)` with the formatter given to
`setFormatter` (possibly `None`), or any handler of another class. -/
inductive Sink where
  | file (path : String) (mode : String) (formatter : Option String)
  | stream
deriving DecidableEq

def Sink.isFile : Sink → Bool
  | .file _ _ _ => true
  | .stream => false

/- A handler attached to a logger: its sink plus whether its underlying
stream has been closed. -/
structure Handler where
  sink : Sink
  closed : Bool
deriving DecidableEq

/- The state of one `logging.Logger` that `_common.py` touches.
`level` is the `Logger.level` field that message filtering consults.
`setLevelAttr` records the instance attribute created by the statement
`logger.setLevel = level`: in Python this assignment shadows the bound
method `setLevel` with the integer, and leaves `Logger.level` unchanged. -/
structure Logger where
  level : Nat
  setLevelAttr : Option Nat
  handlers : List Handler
deriving DecidableEq

/- A logger fresh out of `logging.getLogger(name)`: level `NOTSET` (0),
no handlers, `setLevel` not yet shadowed. -/
def freshLogger : Logger :=
  { level := 0, setLevelAttr := none, handlers := [] }

/- Embedding of `set_job_logger`, acting on the logger that
`logging.getLogger(logger_name)` returned: `logger.setLevel = level`
stores the integer in the shadowing attribute (it does not call the
setter, so `level` is untouched); a `FileHandler` opened on
`log_file_path` in mode `"a"` gets `formatter` and is appended by
`addHandler`. -/
def set_job_logger (logger : Logger) (log_file_path : String) (level : Nat)
    (formatter : Option String) : Logger :=
  { logger with
    setLevelAttr := some level
    handlers := logger.handlers ++ [⟨.file log_file_path "a" formatter, false⟩] }

/- `FileHandler.close()` on one handler: closing an already-closed handler
is a no-op in `logging` (the stream reference is dropped on first close). -/
def closeHandle (h : Handler) : Handler :=
  if h.sink.isFile then { h with closed := true } else h

/- Embedding of `close_job_logger`: every handler that is an instance of
`logging.FileHandler` is closed in place; nothing is removed from
`logger.handlers`. -/
def close_job_logger (logger : Logger) : Logger :=
  { logger with handlers := logger.handlers.map closeHandle }

/- The process-wide name-keyed logger registry (`logging.getLogger`),
restricted to the effect of `close_job_logger` on the logger registered
under `name`: only that logger's state changes. -/
def closeLoggerByName (reg : String → Logger) (name : String) :
    String → Logger :=
  fun n => if n = name then close_job_logger (reg n) else reg n

/-! Concrete fixtures used by witnesses and counterexamples. -/

def wfAny : Task := { name := "workflow", input_type := "Any" }

def wfZarr : Task := { name := "workflow", input_type := "zarr" }

def proj0 : Project := { name := "project" }

def dsSingle : Dataset :=
  { name := "dataset", type := "zarr", read_only := false, paths := ["/data/a"] }

def dsPng : Dataset :=
  { name := "dataset", type := "png", read_only := false, paths := ["/data/a"] }

def dsReadOnly : Dataset :=
  { name := "dataset", type := "zarr", read_only := true, paths := ["/data/a"] }

def outSingle : Dataset :=
  { name := "out", type := "zarr", read_only := false, paths := ["/out/a"] }

def outMulti : Dataset :=
  { name := "out", type := "zarr", read_only := false,
    paths := ["/out/a", "/out/b"] }

def loggerEx : Logger :=
  { level := 30, setLevelAttr := none,
    handlers := [⟨.file "/tmp/a.log" "a" none, false⟩, ⟨.stream, false⟩] }

def reg0 : String → Logger := fun _ => loggerEx

/-! Helper lemmas. -/

lemma not_mismatch_of_compatible {ds : Dataset} {wf : Task}
    (hty : wf.input_type = "Any" ∨ wf.input_type = ds.type) :
    ¬(wf.input_type ≠ "Any" ∧ wf.input_type ≠ ds.type) := by
  rcases hty with h | h
  · exact fun hx => hx.1 h
  · exact fun hx => hx.2 h

lemma closeHandle_idem (h : Handler) : closeHandle (closeHandle h) = closeHandle h := by
  rcases h with ⟨s, c⟩
  cases s <;> simp [closeHandle, Sink.isFile]

lemma sink_closeHandle (h : Handler) : (closeHandle h).sink = h.sink := by
  rcases h with ⟨s, c⟩
  cases s <;> simp [closeHandle, Sink.isFile]

lemma close_job_logger_twice (l : Logger) :
    close_job_logger (close_job_logger l) = close_job_logger l := by
  have hfun : closeHandle ∘ closeHandle = closeHandle := funext closeHandle_idem
  simp [close_job_logger, List.map_map, hfun]

/-- Claim C4: whenever the workflow's input type is neither "Any" nor the
input dataset's type, `validate_workflow_compatibility` fails with the type
mismatch error — regardless of the read-only flag, the path lists and the
optional output dataset — and the error message carries the workflow's
declared input type, the workflow name, the dataset's actual type and the
dataset name. -/
theorem validate_type_mismatch (ds : Dataset) (wf : Task) (out : Option Dataset)
    (h1 : wf.input_type ≠ "Any") (h2 : wf.input_type ≠ ds.type) :
    validate_workflow_compatibility ds wf out =
      .error (.typeError ("Incompatible types `" ++ wf.input_type ++
        "` of workflow `" ++ wf.name ++ "` and `" ++ ds.type ++
        "` of dataset `" ++ ds.name ++ "`")) := by
  unfold validate_workflow_compatibility
  rw [if_pos ⟨h1, h2⟩]
  rfl

/-- Witness for C4 at a concrete mismatched pair. -/
theorem validate_type_mismatch_witness :
    wfZarr.input_type ≠ "Any" ∧ wfZarr.input_type ≠ dsPng.type ∧
      validate_workflow_compatibility dsPng wfZarr none =
        .error (.typeError ("Incompatible types `" ++ wfZarr.input_type ++
          "` of workflow `" ++ wfZarr.name ++ "` and `" ++ dsPng.type ++
          "` of dataset `" ++ dsPng.name ++ "`")) :=
  ⟨by decide, by decide,
    validate_type_mismatch dsPng wfZarr none (by decide) (by decide)⟩

/-- Claim C5: for a type-compatible workflow, a read-only input dataset with
no explicit output dataset makes `validate_workflow_compatibility` fail with
the read-only-input error, whatever the length of its path list. -/
theorem validate_readonly_no_output (ds : Dataset) (wf : Task)
    (hty : wf.input_type = "Any" ∨ wf.input_type = ds.type)
    (hro : ds.read_only = true) :
    validate_workflow_compatibility ds wf none =
      .error (.valueError "Input dataset is read-only") := by
  unfold validate_workflow_compatibility
  rw [if_neg (not_mismatch_of_compatible hty)]
  simp [hro]

/-- Witness for C5 at a concrete read-only dataset. -/
theorem validate_readonly_no_output_witness :
    (wfAny.input_type = "Any" ∨ wfAny.input_type = dsReadOnly.type) ∧
      dsReadOnly.read_only = true ∧
      validate_workflow_compatibility dsReadOnly wfAny none =
        .error (.valueError "Input dataset is read-only") :=
  ⟨Or.inl rfl, rfl,
    validate_readonly_no_output dsReadOnly wfAny (Or.inl rfl) rfl⟩

/-- Claim C6: for a type-compatible workflow, a writable input dataset with
exactly one path and no explicit output dataset resolves to that single
path. -/
theorem validate_single_path_overwrite (ds : Dataset) (wf : Task) (p : String)
    (hty : wf.input_type = "Any" ∨ wf.input_type = ds.type)
    (hro : ds.read_only = false) (hp : ds.paths = [p]) :
    validate_workflow_compatibility ds wf none = .ok (.str p) := by
  unfold validate_workflow_compatibility
  rw [if_neg (not_mismatch_of_compatible hty)]
  simp [hro, hp]

/-- Witness for C6 at a concrete single-path dataset. -/
theorem validate_single_path_overwrite_witness :
    (wfAny.input_type = "Any" ∨ wfAny.input_type = dsSingle.type) ∧
      dsSingle.read_only = false ∧ dsSingle.paths = ["/data/a"] ∧
      validate_workflow_compatibility dsSingle wfAny none =
        .ok (.str "/data/a") :=
  ⟨Or.inl rfl, rfl, rfl,
    validate_single_path_overwrite dsSingle wfAny "/data/a" (Or.inl rfl) rfl rfl⟩

/-- Claim C7: for a type-compatible workflow, a supplied output dataset whose
path list does not have length one makes `validate_workflow_compatibility`
fail with the ambiguous-output-path error, regardless of the input dataset's
read-only flag and path count. -/
theorem validate_ambiguous_output (ds : Dataset) (wf : Task) (od : Dataset)
    (hty : wf.input_type = "Any" ∨ wf.input_type = ds.type)
    (hlen : od.paths.length ≠ 1) :
    validate_workflow_compatibility ds wf (some od) =
      .error (.valueError
        "Cannot determine output path: Multiple paths in dataset.") := by
  unfold validate_workflow_compatibility
  rw [if_neg (not_mismatch_of_compatible hty)]
  simp [hlen]

/-- Witness for C7: a two-path output dataset with a read-only input. -/
theorem validate_ambiguous_output_witness :
    (wfAny.input_type = "Any" ∨ wfAny.input_type = dsReadOnly.type) ∧
      outMulti.paths.length ≠ 1 ∧
      validate_workflow_compatibility dsReadOnly wfAny (some outMulti) =
        .error (.valueError
          "Cannot determine output path: Multiple paths in dataset.") :=
  ⟨Or.inl rfl, by decide,
    validate_ambiguous_output dsReadOnly wfAny outMulti (Or.inl rfl) (by decide)⟩

/-- Claim C8: a workflow whose input type is "Any" never produces the type
mismatch error, whatever the input dataset's type and the rest of the
arguments. -/
theorem validate_any_no_type_mismatch (ds : Dataset) (wf : Task)
    (out : Option Dataset) (msg : String) (hAny : wf.input_type = "Any") :
    validate_workflow_compatibility ds wf out ≠ .error (.typeError msg) := by
  unfold validate_workflow_compatibility
  rw [if_neg (fun hx => hx.1 hAny)]
  cases out with
  | none =>
      by_cases hro : ds.read_only
      · simp [hro]
      · simp only [hro]
        rcases ds.paths with _ | ⟨p, _ | ⟨q, t⟩⟩ <;> simp
  | some od =>
      by_cases hlen : od.paths.length ≠ 1 <;> simp [hlen]

/-- Witness for C8 at a dataset of type "png" against the "Any" workflow. -/
theorem validate_any_no_type_mismatch_witness :
    wfAny.input_type = "Any" ∧
      validate_workflow_compatibility dsPng wfAny none ≠
        .error (.typeError "") :=
  ⟨rfl, validate_any_no_type_mismatch dsPng wfAny none "" rfl⟩

/-- Claim C1 (divergence of the code from the claim): with a compatible
workflow and a supplied output dataset holding the single path "/out/a",
`validate_workflow_compatibility` returns the whole `paths` list (the
source assigns `output_path = output_dataset.paths` and returns it), not
the bare path string that the other branch would return. -/
theorem validate_explicit_output_returns_list :
    validate_workflow_compatibility dsSingle wfAny (some outSingle) =
        .ok (.list ["/out/a"]) ∧
      PyValue.list ["/out/a"] ≠ PyValue.str "/out/a" := by
  constructor
  · rfl
  · decide

/-- Claim C2 counterexample: a read-only single-path input dataset with
`overwrite_input = true` makes `auto_output_dataset` fail, but with the
generic `NotImplementedError` of the unimplemented non-overwrite branch,
which is not the read-only-input error kind. -/
theorem auto_output_readonly_counterexample :
    auto_output_dataset proj0 dsReadOnly wfZarr true =
        .error .notImplementedError ∧
      isReadOnlyInput .notImplementedError = false := by
  constructor
  · rfl
  · decide

/-- Claim C2 as amended: with `overwrite_input = true` and a read-only
input dataset, `auto_output_dataset` fails with `NotImplementedError` —
the same generic error raised when overwrite is not requested — for every
path count. -/
theorem auto_output_readonly_fails (project : Project) (ds : Dataset)
    (wf : Task) (hro : ds.read_only = true) :
    auto_output_dataset project ds wf true = .error .notImplementedError := by
  simp [auto_output_dataset, hro]

/-- Witness for the amended C2 at a concrete read-only dataset. -/
theorem auto_output_readonly_fails_witness :
    dsReadOnly.read_only = true ∧
      auto_output_dataset proj0 dsReadOnly wfZarr true =
        .error .notImplementedError :=
  ⟨rfl, auto_output_readonly_fails proj0 dsReadOnly wfZarr rfl⟩

/-- Claim C3 (divergence of the code from the claim): acquiring a job
logger on a fresh logger (level NOTSET = 0) with minimum level 20 (INFO)
leaves the level that message filtering consults at 0, not 20: the source
statement `logger.setLevel = level` shadows the setter with the integer
instead of calling it. -/
theorem set_job_logger_level_not_applied :
    (set_job_logger freshLogger "/tmp/job-42.log" 20 none).level = 0 ∧
      (set_job_logger freshLogger "/tmp/job-42.log" 20 none).level ≠ 20 := by
  constructor
  · rfl
  · decide

/-- Claim C9: `close_job_logger` is idempotent on the logger registry —
closing the logger registered under a name twice yields the same registry
state as closing it once — and leaves every logger registered under a
different name untouched. -/
theorem close_job_logger_idempotent (reg : String → Logger) (name n : String)
    (h : n ≠ name) :
    closeLoggerByName (closeLoggerByName reg name) name =
        closeLoggerByName reg name ∧
      closeLoggerByName reg name n = reg n := by
  constructor
  · funext m
    by_cases hm : m = name
    · subst hm
      simp [closeLoggerByName, close_job_logger_twice]
    · simp [closeLoggerByName, hm]
  · simp [closeLoggerByName, h]

/-- Witness for C9 at a concrete registry with a two-handler logger. -/
theorem close_job_logger_idempotent_witness :
    ("other" : String) ≠ "job" ∧
      (closeLoggerByName (closeLoggerByName reg0 "job") "job" =
          closeLoggerByName reg0 "job" ∧
        closeLoggerByName reg0 "job" "other" = reg0 "other") :=
  ⟨by decide, close_job_logger_idempotent reg0 "job" "other" (by decide)⟩

/-- Claim C10: `close_job_logger` detaches nothing — the sinks attached to
the logger, with their order, are the same before and after (only the
closed flag of file-backed handlers changes in place) — and a subsequent
`set_job_logger` appends one new open file handler after the existing
(closed) ones. -/
theorem close_job_logger_preserves_handlers (l : Logger) (path : String)
    (lvl : Nat) (fmt : Option String) :
    (close_job_logger l).handlers.map Handler.sink =
        l.handlers.map Handler.sink ∧
      (set_job_logger (close_job_logger l) path lvl fmt).handlers =
        (close_job_logger l).handlers ++ [⟨.file path "a" fmt, false⟩] := by
  constructor
  · have hfun : Handler.sink ∘ closeHandle = Handler.sink :=
      funext sink_closeHandle
    simp [close_job_logger, List.map_map, hfun]
  · rfl

end FractalServer
